import Mathlib

set_option autoImplicit false

/-!
Shallow embedding of the session-authentication flow of
`src/streamlit_app.py` (Kite Connect dashboard) and the search front-end
of `src/app.py`, together with the restriction-interval check described
in the specification.  Streamlit's `st.session_state` is modelled as an
association-list dictionary; exceptions of the Python code are modelled
with `Except`; the external `kiteconnect` library (not part of the
repository) is modelled as function parameters whose contract follows
the specification.
-/

namespace KiteApp

/-- Provider response to a successful token exchange.
Modelled from the spec: the token endpoint returns JSON
with fields access_token, user_id, login_time on success
(the kiteconnect library is not part of the repository). -/
structure SessionData where
  access_token : String
  user_id : String
  login_time : String
deriving DecidableEq, Repr

/-- One row of the instruments dump (the columns used by
`find_instrument_token` in `src/streamlit_app.py`). -/
structure Instrument where
  instrument_token : Int
  exchange : String
  tradingsymbol : String
deriving DecidableEq, Repr

/-- A value stored in `st.session_state`. -/
inductive SVal where
  | str (s : String)
  | resp (d : SessionData)
  | df (insts : List Instrument)
deriving DecidableEq, Repr

/-- `st.session_state`: a string-keyed dictionary. -/
abbrev Dict : Type := List (String × SVal)

/-- Dictionary assignment `st.session_state[k] = v`: overwrites the
binding for `k` in place, or appends a fresh binding. -/
def setItem (d : Dict) (k : String) (v : SVal) : Dict :=
  match d with
  | [] => [(k, v)]
  | (a, b) :: t => if a = k then (k, v) :: t else (a, b) :: setItem t k v

/-- Dictionary lookup returning `none` when the key is absent. -/
def getItem? (d : Dict) (k : String) : Option SVal :=
  match d with
  | [] => none
  | (a, b) :: t => if a = k then some b else getItem? t k

/-- `k in st.session_state`. -/
def hasKey (d : Dict) (k : String) : Bool :=
  (getItem? d k).isSome

/-- `st.session_state.pop(k, None)`: removes the binding for `k`. -/
def popItem (d : Dict) (k : String) : Dict :=
  d.filter (fun p => p.1 ≠ k)

/-- Number of bindings a dictionary holds for a key. -/
def keyCount (d : Dict) (k : String) : Nat :=
  (d.filter (fun p => p.1 = k)).length

theorem setItem_cons (a : String) (b : SVal) (t : Dict) (k : String) (v : SVal) :
    setItem ((a, b) :: t) k v =
      if a = k then (k, v) :: t else (a, b) :: setItem t k v := rfl

theorem getItem?_cons (a : String) (b : SVal) (t : Dict) (k : String) :
    getItem? ((a, b) :: t) k = if a = k then some b else getItem? t k := rfl

theorem keyCount_cons (a : String) (b : SVal) (t : Dict) (k : String) :
    keyCount ((a, b) :: t) k = (if a = k then 1 else 0) + keyCount t k := by
  by_cases h : a = k
  · simp [keyCount, List.filter_cons, h, Nat.add_comm]
  · simp [keyCount, List.filter_cons, h]

theorem popItem_cons (a : String) (b : SVal) (t : Dict) (k : String) :
    popItem ((a, b) :: t) k =
      if a = k then popItem t k else (a, b) :: popItem t k := by
  by_cases h : a = k <;> simp [popItem, List.filter_cons, h]

theorem getItem?_setItem_self (d : Dict) (k : String) (v : SVal) :
    getItem? (setItem d k v) k = some v := by
  induction d with
  | nil => simp [setItem, getItem?]
  | cons hd t ih =>
      obtain ⟨a, b⟩ := hd
      rw [setItem_cons]
      by_cases h : a = k
      · rw [if_pos h, getItem?_cons, if_pos rfl]
      · rw [if_neg h, getItem?_cons, if_neg h, ih]

theorem getItem?_setItem_ne (d : Dict) (k k2 : String) (v : SVal)
    (hne : k ≠ k2) : getItem? (setItem d k v) k2 = getItem? d k2 := by
  induction d with
  | nil => simp [setItem, getItem?, hne]
  | cons hd t ih =>
      obtain ⟨a, b⟩ := hd
      rw [setItem_cons]
      by_cases h : a = k
      · rw [if_pos h, getItem?_cons, if_neg hne, getItem?_cons, h, if_neg hne]
      · rw [if_neg h, getItem?_cons, getItem?_cons, ih]

theorem keyCount_setItem_ne (d : Dict) (k k2 : String) (v : SVal)
    (hne : k ≠ k2) : keyCount (setItem d k v) k2 = keyCount d k2 := by
  induction d with
  | nil => simp [setItem, keyCount, List.filter_cons, hne]
  | cons hd t ih =>
      obtain ⟨a, b⟩ := hd
      rw [setItem_cons]
      by_cases h : a = k
      · rw [if_pos h, keyCount_cons, keyCount_cons, h]
      · rw [if_neg h, keyCount_cons, keyCount_cons, ih]

theorem keyCount_setItem_self (d : Dict) (k : String) (v : SVal)
    (hle : keyCount d k ≤ 1) : keyCount (setItem d k v) k = 1 := by
  induction d with
  | nil => simp [setItem, keyCount, List.filter_cons]
  | cons hd t ih =>
      obtain ⟨a, b⟩ := hd
      rw [keyCount_cons] at hle
      rw [setItem_cons]
      by_cases h : a = k
      · rw [if_pos h, keyCount_cons, if_pos rfl]
        rw [if_pos h] at hle
        omega
      · rw [if_neg h, keyCount_cons, if_neg h]
        rw [if_neg h] at hle
        rw [ih (by omega)]

theorem keyCount_setItem_le (d : Dict) (k k2 : String) (v : SVal)
    (hle : keyCount d k2 ≤ 1) : keyCount (setItem d k v) k2 ≤ 1 := by
  by_cases h : k = k2
  · subst h
    rw [keyCount_setItem_self d k v hle]
  · rw [keyCount_setItem_ne d k k2 v h]
    exact hle

theorem keyCount_popItem_le (d : Dict) (k k2 : String) :
    keyCount (popItem d k) k2 ≤ keyCount d k2 := by
  induction d with
  | nil => simp [popItem, keyCount]
  | cons hd t ih =>
      obtain ⟨a, b⟩ := hd
      rw [popItem_cons, keyCount_cons]
      by_cases h1 : a = k
      · rw [if_pos h1]
        refine le_trans ih ?_
        omega
      · rw [if_neg h1, keyCount_cons]
        omega

/-- Outcome of one pass of the script through the request-token
exchange block of `src/streamlit_app.py` (lines 62-75). -/
inductive RunOutcome where
  | halted
  | rerun
  | fallthrough
deriving DecidableEq, Repr

/-- The request-token exchange block of `src/streamlit_app.py`
(lines 62-75).  `generate_session` stands for the provider call
`kite_client.generate_session(request_token, api_secret)`; modelled from
the spec: it returns the session data on success and raises on failure.
The guard is
`if request_token and "kite_access_token" not in st.session_state:`;
on success the block stores `kite_access_token` and
`kite_login_response` and calls `st.rerun()`; on failure it shows an
error and calls `st.stop()` without touching the session state. -/
def exchangeBlock (generate_session : String → Except String SessionData)
    (request_token : Option String) (sess : Dict) : Dict × RunOutcome :=
  match request_token with
  | none => (sess, RunOutcome.fallthrough)
  | some rt =>
      if rt = "" then (sess, RunOutcome.fallthrough)
      else if hasKey sess "kite_access_token" then (sess, RunOutcome.fallthrough)
      else
        match generate_session rt with
        | Except.ok data =>
            (setItem (setItem sess "kite_access_token" (SVal.str data.access_token))
              "kite_login_response" (SVal.resp data), RunOutcome.rerun)
        | Except.error _ => (sess, RunOutcome.halted)

/-- Whether a pass through the exchange block submits the request token
to the provider (the guard of line 62 passes). -/
def exchangeInvoked (request_token : Option String) (sess : Dict) : Bool :=
  match request_token with
  | none => false
  | some rt => !(rt == "") && !(hasKey sess "kite_access_token")

/-- A `KiteConnect` client as used by the script: an api_key plus the
value passed to `set_access_token`, if any. -/
structure KiteClient where
  api_key : String
  access_token : Option SVal
deriving DecidableEq, Repr

/-- Authenticated client construction of `src/streamlit_app.py`
(lines 79-84): `k` is built and given the stored access token exactly
when `"kite_access_token" in st.session_state`. -/
def mkAuthClient (apiKey : String) (sess : Dict) : Option KiteClient :=
  match getItem? sess "kite_access_token" with
  | some v => some { api_key := apiKey, access_token := some v }
  | none => none

/-- The loop `for key in list(st.session_state.keys()):
st.session_state.pop(key)` of the logout handler. -/
def clearAll (d : Dict) : Dict :=
  d.foldl (fun acc kv => popItem acc kv.1) d

/-- Logout handler of `src/streamlit_app.py` (lines 252-258): pops
`kite_access_token` and `kite_login_response`, then pops every
remaining key. -/
def logoutHandler (sess : Dict) : Dict :=
  clearAll (popItem (popItem sess "kite_access_token") "kite_login_response")

theorem foldl_popItem_nil (l : List (String × SVal)) (d : Dict)
    (hcov : ∀ p ∈ d, ∃ q ∈ l, q.1 = p.1) :
    l.foldl (fun acc kv => popItem acc kv.1) d = [] := by
  induction l generalizing d with
  | nil =>
      cases d with
      | nil => rfl
      | cons p t =>
          exfalso
          obtain ⟨q, hq, _⟩ := hcov p (by simp)
          simp at hq
  | cons q l2 ih =>
      simp only [List.foldl_cons]
      refine ih (popItem d q.1) ?_
      intro p hp
      have hmem : p ∈ d ∧ ¬(p.1 = q.1) := by
        simpa [popItem, List.mem_filter] using hp
      obtain ⟨r, hr, hre⟩ := hcov p hmem.1
      rcases List.mem_cons.mp hr with h | h
      · exact absurd (h ▸ hre) (fun he => hmem.2 he.symm)
      · exact ⟨r, h, hre⟩

theorem clearAll_eq_nil (d : Dict) : clearAll d = [] :=
  foldl_popItem_nil d d (fun p hp => ⟨p, hp, rfl⟩)

theorem logoutHandler_eq_nil (sess : Dict) : logoutHandler sess = [] :=
  clearAll_eq_nil _

/-- User-visible events that touch the session dictionary: a script
rerun reaching the exchange block, a click on the Logout button (shown
only when a client exists, i.e. when an access token is stored), and
any other script write to the session state. -/
inductive Ev where
  | run
  | logout
  | store (k : String) (v : SVal)
deriving DecidableEq, Repr

/-- One event step over (session dictionary, number of provider
exchange submissions so far).  The query params `qp` persist across
reruns: nothing in the script ever clears them. -/
def step (generate_session : String → Except String SessionData)
    (qp : Option String) : Dict × Nat → Ev → Dict × Nat
  | (sess, n), Ev.run =>
      ((exchangeBlock generate_session qp sess).1,
        n + (if exchangeInvoked qp sess then 1 else 0))
  | (sess, n), Ev.logout =>
      ((if hasKey sess "kite_access_token" then logoutHandler sess else sess), n)
  | (sess, n), Ev.store k v => (setItem sess k v, n)

/-- A whole process: a fresh session dictionary followed by a list of
events, returning the final dictionary and how many times the provider
was given the request token. -/
def runTrace (generate_session : String → Except String SessionData)
    (qp : Option String) (evs : List Ev) : Dict × Nat :=
  evs.foldl (step generate_session qp) ([], 0)

/-- Sidebar Account Info messages (`src/streamlit_app.py` lines 242-250). -/
inductive AccountInfoMsg where
  | authSuccess
  | profileWarn
deriving DecidableEq, Repr

/-- Provider profile payload (fields read by the sidebar). -/
structure Profile where
  user_name : String
  user_id : String
deriving DecidableEq, Repr

/-- Sidebar Account Info block (`src/streamlit_app.py` lines 242-250):
`try: profile = k.profile(); ... except Exception: st.warning(...)`.
The handler only displays a message; it never writes to the session
dictionary, in particular it never removes the stored credential. -/
def sidebarAccountInfo (profileCall : Except String Profile) (sess : Dict) :
    Dict × AccountInfoMsg :=
  match profileCall with
  | Except.ok _ => (sess, AccountInfoMsg.authSuccess)
  | Except.error _ => (sess, AccountInfoMsg.profileWarn)

/-- Dashboard Account Summary messages (`src/streamlit_app.py`
lines 299-307). -/
inductive SummaryMsg where
  | metrics
  | warnSummary
deriving DecidableEq, Repr

/-- Dashboard Account Summary block (`src/streamlit_app.py`
lines 299-307): fetches profile then margins inside one `try`; on any
exception it shows a warning and leaves the session dictionary
untouched. -/
def dashboardAccountSummary (profileCall : Except String Profile)
    (marginsCall : Except String String) (sess : Dict) : Dict × SummaryMsg :=
  match profileCall with
  | Except.error _ => (sess, SummaryMsg.warnSummary)
  | Except.ok _ =>
      match marginsCall with
      | Except.error _ => (sess, SummaryMsg.warnSummary)
      | Except.ok _ => (sess, SummaryMsg.metrics)

/-- A provider that accepts every request token. -/
def gsOk : String → Except String SessionData :=
  fun _ => Except.ok ⟨"TOK", "AB1234", "2025-01-01 09:00:00"⟩

/-- A provider whose exchange call always raises. -/
def gsFail : String → Except String SessionData :=
  fun _ => Except.error "NetworkException: gateway timeout"

/-- A session dictionary holding one stored credential. -/
def sessAuth : Dict := [("kite_access_token", SVal.str "TOK")]

theorem exchangeBlock_fst_cases (gs : String → Except String SessionData)
    (qp : Option String) (s : Dict) :
    (exchangeBlock gs qp s).1 = s ∨
    ∃ data, (exchangeBlock gs qp s).1 =
      setItem (setItem s "kite_access_token" (SVal.str data.access_token))
        "kite_login_response" (SVal.resp data) := by
  cases qp with
  | none => exact Or.inl rfl
  | some rt =>
      simp only [exchangeBlock]
      by_cases h1 : rt = ""
      · simp [h1]
      · rw [if_neg h1]
        by_cases h2 : hasKey s "kite_access_token"
        · simp [h2]
        · simp only [h2, Bool.false_eq_true, if_false]
          cases hgs : gs rt with
          | ok data => exact Or.inr ⟨data, rfl⟩
          | error e => exact Or.inl rfl

theorem keyCount_step_le (gs : String → Except String SessionData)
    (qp : Option String) (s : Dict) (n : Nat) (e : Ev) (k : String)
    (h : keyCount s k ≤ 1) :
    keyCount ((step gs qp (s, n) e).1) k ≤ 1 := by
  cases e with
  | run =>
      show keyCount (exchangeBlock gs qp s).1 k ≤ 1
      rcases exchangeBlock_fst_cases gs qp s with heq | ⟨data, heq⟩
      · rw [heq]; exact h
      · rw [heq]
        exact keyCount_setItem_le _ _ _ _ (keyCount_setItem_le _ _ _ _ h)
  | logout =>
      show keyCount (if hasKey s "kite_access_token" then logoutHandler s else s) k ≤ 1
      by_cases hk : hasKey s "kite_access_token"
      · rw [if_pos hk, logoutHandler_eq_nil]
        simp [keyCount]
      · rw [if_neg hk]; exact h
  | store k2 v => exact keyCount_setItem_le _ _ _ _ h

theorem keyCount_foldl_le (gs : String → Except String SessionData)
    (qp : Option String) (k : String) (evs : List Ev) (s : Dict) (n : Nat)
    (h : keyCount s k ≤ 1) :
    keyCount ((evs.foldl (step gs qp) (s, n)).1) k ≤ 1 := by
  induction evs generalizing s n with
  | nil => exact h
  | cons e rest ih =>
      simp only [List.foldl_cons]
      have := ih ((step gs qp (s, n) e).1) ((step gs qp (s, n) e).2)
        (keyCount_step_le gs qp s n e k h)
      rwa [Prod.mk.eta] at this

theorem step_run_authed (gs : String → Except String SessionData)
    (rt : String) (s : Dict) (n : Nat)
    (hk : hasKey s "kite_access_token" = true) :
    step gs (some rt) (s, n) Ev.run = (s, n) := by
  show ((exchangeBlock gs (some rt) s).1,
    n + (if exchangeInvoked (some rt) s then 1 else 0)) = (s, n)
  have hinv : exchangeInvoked (some rt) s = false := by
    simp [exchangeInvoked, hk]
  rw [hinv]
  simp only [exchangeBlock]
  by_cases h1 : rt = ""
  · simp [h1]
  · simp [h1, hk]

theorem foldl_runs_authed (gs : String → Except String SessionData)
    (rt : String) (evs : List Ev) (s : Dict) (n : Nat)
    (hruns : ∀ e ∈ evs, e = Ev.run)
    (hk : hasKey s "kite_access_token" = true) :
    evs.foldl (step gs (some rt)) (s, n) = (s, n) := by
  induction evs with
  | nil => rfl
  | cons e rest ih =>
      have he : e = Ev.run := hruns e (by simp)
      subst he
      simp only [List.foldl_cons]
      rw [step_run_authed gs rt s n hk]
      exact ih (fun e2 h2 => hruns e2 (by simp [h2]))

/-- Claim C1: when the provider accepts the request token, the exchange
block stores the provider's access token as `kite_access_token` (with
the full login response alongside), reruns, and the authenticated
client is then constructed with exactly that stored token. -/
theorem c1_exchange_success_yields_credential
    (gs : String → Except String SessionData) (rt : String) (sess : Dict)
    (data : SessionData) (apiKey : String)
    (hrt : rt ≠ "") (hguard : hasKey sess "kite_access_token" = false)
    (hok : gs rt = Except.ok data) :
    (exchangeBlock gs (some rt) sess).2 = RunOutcome.rerun ∧
    getItem? (exchangeBlock gs (some rt) sess).1 "kite_access_token"
      = some (SVal.str data.access_token) ∧
    getItem? (exchangeBlock gs (some rt) sess).1 "kite_login_response"
      = some (SVal.resp data) ∧
    mkAuthClient apiKey (exchangeBlock gs (some rt) sess).1
      = some ⟨apiKey, some (SVal.str data.access_token)⟩ := by
  have hne : ("kite_login_response" : String) ≠ "kite_access_token" := by decide
  have hblock : exchangeBlock gs (some rt) sess =
      (setItem (setItem sess "kite_access_token" (SVal.str data.access_token))
        "kite_login_response" (SVal.resp data), RunOutcome.rerun) := by
    simp only [exchangeBlock]
    rw [if_neg hrt]
    simp [hguard, hok]
  rw [hblock]
  have htok : getItem?
      (setItem (setItem sess "kite_access_token" (SVal.str data.access_token))
        "kite_login_response" (SVal.resp data)) "kite_access_token"
      = some (SVal.str data.access_token) := by
    rw [getItem?_setItem_ne _ _ _ _ hne, getItem?_setItem_self]
  refine ⟨rfl, htok, getItem?_setItem_self _ _ _, ?_⟩
  simp [mkAuthClient, htok]

/-- Witness for C1 at a concrete provider, token and empty session. -/
theorem c1_witness :
    (exchangeBlock gsOk (some "rt") []).2 = RunOutcome.rerun ∧
    getItem? (exchangeBlock gsOk (some "rt") []).1 "kite_access_token"
      = some (SVal.str "TOK") ∧
    getItem? (exchangeBlock gsOk (some "rt") []).1 "kite_login_response"
      = some (SVal.resp ⟨"TOK", "AB1234", "2025-01-01 09:00:00"⟩) ∧
    mkAuthClient "key" (exchangeBlock gsOk (some "rt") []).1
      = some ⟨"key", some (SVal.str "TOK")⟩ :=
  c1_exchange_success_yields_credential gsOk "rt" []
    ⟨"TOK", "AB1234", "2025-01-01 09:00:00"⟩ "key" (by decide) rfl rfl

/-- Counterexample to claim C2: after a downstream call rejected with a
401, the handler leaves the stored credential in place and the next
client is built from the same stale token — the session does not
transition to unauthenticated. -/
theorem c2_counterexample :
    (sidebarAccountInfo (Except.error "401 Unauthorized TokenException")
        sessAuth).1 = sessAuth ∧
    hasKey (sidebarAccountInfo (Except.error "401 Unauthorized TokenException")
        sessAuth).1 "kite_access_token" = true ∧
    mkAuthClient "key"
        (sidebarAccountInfo (Except.error "401 Unauthorized TokenException")
          sessAuth).1
      = some ⟨"key", some (SVal.str "TOK")⟩ :=
  ⟨rfl, rfl, rfl⟩

/-- Amended claim C2: a 401/403 from a downstream authenticated call is
caught and reported as a warning; the session dictionary (and with it
the stored credential) is left unchanged, so subsequent calls reuse the
same stored credential. -/
theorem c2_amended_warn_and_retain (e : String) (sess : Dict)
    (marginsCall : Except String String) (pr : Profile) :
    sidebarAccountInfo (Except.error e) sess = (sess, AccountInfoMsg.profileWarn) ∧
    dashboardAccountSummary (Except.error e) marginsCall sess
      = (sess, SummaryMsg.warnSummary) ∧
    dashboardAccountSummary (Except.ok pr) (Except.error e) sess
      = (sess, SummaryMsg.warnSummary) :=
  ⟨rfl, rfl, rfl⟩

/-- Counterexample to claim C3: with the request token still in the
query params, the trace run-logout-run submits the same request token
to the provider twice in one process. -/
theorem c3_replay_counterexample :
    (runTrace gsOk (some "rt") [Ev.run, Ev.logout, Ev.run]).2 = 2 := by
  decide

/-- Amended claim C3: the guard of line 62 prevents a second submission
only while a `kite_access_token` remains stored: in a process whose
events are reruns only (no logout) and whose exchange succeeds, the
request token is submitted at most once. -/
theorem c3_amended_no_replay_while_token_stored
    (gs : String → Except String SessionData) (rt : String)
    (data : SessionData) (evs : List Ev)
    (hok : gs rt = Except.ok data) (hrt : rt ≠ "")
    (hruns : ∀ e ∈ evs, e = Ev.run) :
    (runTrace gs (some rt) evs).2 ≤ 1 := by
  cases evs with
  | nil => simp [runTrace]
  | cons e rest =>
      have he : e = Ev.run := hruns e (by simp)
      subst he
      have hstep : step gs (some rt) ([], 0) Ev.run =
          (setItem (setItem [] "kite_access_token" (SVal.str data.access_token))
            "kite_login_response" (SVal.resp data), 1) := by
        show ((exchangeBlock gs (some rt) []).1,
          0 + (if exchangeInvoked (some rt) [] then 1 else 0)) = _
        have hinv : exchangeInvoked (some rt) [] = true := by
          simp [exchangeInvoked, hasKey, getItem?, hrt]
        rw [hinv]
        simp only [exchangeBlock]
        rw [if_neg hrt]
        simp [hasKey, getItem?, hok]
      show ((Ev.run :: rest).foldl (step gs (some rt)) ([], 0)).2 ≤ 1
      simp only [List.foldl_cons]
      rw [hstep]
      rw [foldl_runs_authed gs rt rest _ 1
        (fun e2 h2 => hruns e2 (by simp [h2])) ?_]
      · have hne : ("kite_login_response" : String) ≠ "kite_access_token" := by
          decide
        simp [hasKey, getItem?_setItem_ne _ _ _ _ hne, getItem?_setItem_self]

/-- Witness for the amended C3 on a concrete two-rerun process. -/
theorem c3_amended_witness :
    (runTrace gsOk (some "rt") [Ev.run, Ev.run]).2 ≤ 1 :=
  c3_amended_no_replay_while_token_stored gsOk "rt"
    ⟨"TOK", "AB1234", "2025-01-01 09:00:00"⟩ [Ev.run, Ev.run] rfl (by decide)
    (by decide)

/-- Claim C4: along every event trace the session dictionary holds at
most one binding for any key — in particular at most one stored
credential — and the dictionary assignment used by the exchange block
overwrites whatever was previously bound to the key. -/
theorem c4_single_credential (gs : String → Except String SessionData)
    (qp : Option String) (evs : List Ev) (k : String) (d : Dict) (v : SVal) :
    keyCount (runTrace gs qp evs).1 k ≤ 1 ∧
    getItem? (setItem d k v) k = some v :=
  ⟨keyCount_foldl_le gs qp k evs [] 0 (by simp [keyCount]),
    getItem?_setItem_self d k v⟩

/-- Claim C5: the exchange block is atomic with respect to the session
dictionary — the provider call either succeeds and both credential
fields are stored, or it fails and the session dictionary is returned
exactly unchanged. -/
theorem c5_exchange_atomic (gs : String → Except String SessionData)
    (rt : String) (sess : Dict)
    (hrt : rt ≠ "") (hguard : hasKey sess "kite_access_token" = false) :
    (∃ data, gs rt = Except.ok data ∧
      exchangeBlock gs (some rt) sess =
        (setItem (setItem sess "kite_access_token" (SVal.str data.access_token))
          "kite_login_response" (SVal.resp data), RunOutcome.rerun)) ∨
    (∃ e, gs rt = Except.error e ∧
      exchangeBlock gs (some rt) sess = (sess, RunOutcome.halted)) := by
  simp only [exchangeBlock]
  rw [if_neg hrt]
  simp only [hguard, Bool.false_eq_true, if_false]
  cases hgs : gs rt with
  | ok data => exact Or.inl ⟨data, rfl, rfl⟩
  | error e => exact Or.inr ⟨e, rfl, rfl⟩

/-- Witness for C5 at a concrete failing provider: the session
dictionary is unchanged and the script halts. -/
theorem c5_witness :
    (∃ data, gsFail "rt" = Except.ok data ∧
      exchangeBlock gsFail (some "rt") [] =
        (setItem (setItem [] "kite_access_token" (SVal.str data.access_token))
          "kite_login_response" (SVal.resp data), RunOutcome.rerun)) ∨
    (∃ e, gsFail "rt" = Except.error e ∧
      exchangeBlock gsFail (some "rt") [] = ([], RunOutcome.halted)) :=
  c5_exchange_atomic gsFail "rt" [] (by decide) rfl

/-- Claim C6: the logout handler empties the session dictionary: no
access token, no login response, and no authenticated client can be
constructed afterwards. -/
theorem c6_logout_destroys_credential (sess : Dict) (apiKey : String) :
    logoutHandler sess = [] ∧
    getItem? (logoutHandler sess) "kite_access_token" = none ∧
    getItem? (logoutHandler sess) "kite_login_response" = none ∧
    mkAuthClient apiKey (logoutHandler sess) = none := by
  rw [logoutHandler_eq_nil]
  exact ⟨rfl, rfl, rfl, rfl⟩

/-- The `[kite]` section of the Streamlit secrets file; each field may
be absent (`.get` returns `None`). -/
structure KiteSecrets where
  api_key : Option String
  api_secret : Option String
  redirect_uri : Option String
deriving DecidableEq, Repr

/-- Secrets load of `src/streamlit_app.py` (lines 27-35):
`st.secrets["kite"]` raises when the section is absent, in which case
all three values are set to `None`. -/
def loadedCreds (secrets : Option KiteSecrets) :
    Option String × Option String × Option String :=
  match secrets with
  | some c => (c.api_key, c.api_secret, c.redirect_uri)
  | none => (none, none, none)

/-- Python truthiness of an optional string: `None` and `""` are falsy. -/
def optTruthy : Option String → Bool
  | none => false
  | some x => !(x == "")

/-- `not API_KEY or not API_SECRET or not REDIRECT_URI`
(`src/streamlit_app.py` line 37). -/
def credMissing (secrets : Option KiteSecrets) : Bool :=
  match loadedCreds secrets with
  | (a, s, r) => !(optTruthy a && optTruthy s && optTruthy r)

/-- Result of the startup guard: `halt` is `st.stop()` after the error
message, `proceed` carries the three credentials onwards. -/
inductive StartupResult where
  | halt
  | proceed (api_key api_secret redirect_uri : String)
deriving DecidableEq, Repr

/-- Startup guard of `src/streamlit_app.py` (lines 27-40): if any of
the three credentials is missing or empty the script shows a
configuration error and stops; it is never retried. -/
def startupCheck (secrets : Option KiteSecrets) : StartupResult :=
  match loadedCreds secrets with
  | (some a, some s, some r) =>
      if a = "" ∨ s = "" ∨ r = "" then StartupResult.halt
      else StartupResult.proceed a s r
  | _ => StartupResult.halt

/-- Login URL construction.  Modelled from the spec: the provider's
hosted login page parameterized by the public client id; built by
`kite_client.login_url()` (kiteconnect is not in the repository). -/
def login_url (apiKey : String) : String :=
  "https://kite.zerodha.com/connect/login?api_key=" ++ apiKey ++ "&v=3"

/-- The first statements after the guard (`src/streamlit_app.py`
lines 45-46): the unauthenticated client and its login URL are built
only when the startup guard proceeded. -/
def loginStage (secrets : Option KiteSecrets) : Option (KiteClient × String) :=
  match startupCheck secrets with
  | StartupResult.halt => none
  | StartupResult.proceed a _ _ => some (⟨a, none⟩, login_url a)

/-- Claim C7: the script halts at startup exactly when one of api_key,
api_secret, redirect_uri is missing or empty, and in that case the
login client and login URL are never constructed. -/
theorem c7_config_guard (secrets : Option KiteSecrets) :
    (startupCheck secrets = StartupResult.halt ↔ credMissing secrets = true) ∧
    (loginStage secrets = none ↔ startupCheck secrets = StartupResult.halt) := by
  constructor
  · cases secrets with
    | none => simp [startupCheck, loadedCreds, credMissing, optTruthy]
    | some c =>
        obtain ⟨a, s, r⟩ := c
        cases a with
        | none => simp [startupCheck, loadedCreds, credMissing, optTruthy]
        | some av =>
            cases s with
            | none => simp [startupCheck, loadedCreds, credMissing, optTruthy]
            | some sv =>
                cases r with
                | none => simp [startupCheck, loadedCreds, credMissing, optTruthy]
                | some rv =>
                    simp only [startupCheck, loadedCreds, credMissing, optTruthy]
                    by_cases ha : av = ""
                    · simp [ha]
                    · by_cases hs : sv = ""
                      · simp [ha, hs]
                      · by_cases hr : rv = ""
                        · simp [ha, hs, hr]
                        · simp [ha, hs, hr]
  · cases h : startupCheck secrets with
    | halt => simp [loginStage, h]
    | proceed a s r => simp [loginStage, h]

/-- Witness for C7 at the concrete absent secrets section. -/
theorem c7_witness :
    (startupCheck none = StartupResult.halt ↔ credMissing none = true) ∧
    (loginStage none = none ↔ startupCheck none = StartupResult.halt) :=
  c7_config_guard none

end KiteApp

namespace SniffR

/-- Action taken by the search submit handler of `src/app.py`
(lines 101-112). -/
inductive SearchAction where
  | errorSecrets
  | errorEmptyQuery
  | post (payloadQuery payloadUserId authHeader : String)
deriving DecidableEq, Repr

/-- Search submit handler of `src/app.py` (lines 101-112): secrets come
from `st.secrets.get(..., "")` so a missing secret is the empty string;
the outbound `requests.post` is reached only past both guards, with
payload `{query, userId}` and header `Authorization: Bearer <jwt>`. -/
def searchSubmit (api_url jwt_token user_id query : String) : SearchAction :=
  if api_url = "" ∨ jwt_token = "" ∨ user_id = "" then
    SearchAction.errorSecrets
  else if query.trim = "" then
    SearchAction.errorEmptyQuery
  else
    SearchAction.post query user_id ("Bearer " ++ jwt_token)

/-- Claim C9: the handler issues the outbound POST exactly when all
three secrets are present and the stripped query is non-empty;
otherwise it shows an error message and no request is sent. -/
theorem c9_search_guard (api_url jwt_token user_id query : String) :
    ((∃ q u h, searchSubmit api_url jwt_token user_id query
        = SearchAction.post q u h) ↔
      (api_url ≠ "" ∧ jwt_token ≠ "" ∧ user_id ≠ "" ∧ query.trim ≠ "")) ∧
    (searchSubmit api_url jwt_token user_id query = SearchAction.errorSecrets ∨
      searchSubmit api_url jwt_token user_id query = SearchAction.errorEmptyQuery ∨
      searchSubmit api_url jwt_token user_id query
        = SearchAction.post query user_id ("Bearer " ++ jwt_token)) := by
  unfold searchSubmit
  by_cases hsec : api_url = "" ∨ jwt_token = "" ∨ user_id = ""
  · rw [if_pos hsec]
    refine ⟨⟨?_, ?_⟩, Or.inl rfl⟩
    · rintro ⟨q, u, h, he⟩
      cases he
    · intro hp
      exact absurd hsec (by tauto)
  · rw [if_neg hsec]
    by_cases hq : query.trim = ""
    · rw [if_pos hq]
      refine ⟨⟨?_, ?_⟩, Or.inr (Or.inl rfl)⟩
      · rintro ⟨q, u, h, he⟩
        cases he
      · intro hp
        exact absurd hq hp.2.2.2
    · rw [if_neg hq]
      refine ⟨⟨?_, ?_⟩, Or.inr (Or.inr rfl)⟩
      · intro _
        refine ⟨?_, ?_, ?_, hq⟩
        · exact fun h => hsec (Or.inl h)
        · exact fun h => hsec (Or.inr (Or.inl h))
        · exact fun h => hsec (Or.inr (Or.inr h))
      · intro _
        exact ⟨query, user_id, _, rfl⟩

/-- Witness for C9 at a concrete missing API URL. -/
theorem c9_witness :
    ((∃ q u h, searchSubmit "" "jwt" "uid" "reliance"
        = SearchAction.post q u h) ↔
      (("" : String) ≠ "" ∧ ("jwt" : String) ≠ "" ∧ ("uid" : String) ≠ "" ∧
        ("reliance" : String).trim ≠ "")) ∧
    (searchSubmit "" "jwt" "uid" "reliance" = SearchAction.errorSecrets ∨
      searchSubmit "" "jwt" "uid" "reliance" = SearchAction.errorEmptyQuery ∨
      searchSubmit "" "jwt" "uid" "reliance"
        = SearchAction.post "reliance" "uid" ("Bearer " ++ "jwt")) :=
  c9_search_guard "" "jwt" "uid" "reliance"

end SniffR

namespace KiteApp

/-- Result of a market-data helper: either the backend's payload or the
dictionary `{"error": str(e)}` built by the `except` branch. -/
inductive FetchResult (α : Type) where
  | data (d : α)
  | errorDict (msg : String)
deriving DecidableEq, Repr

/-- `get_ltp_price` of `src/streamlit_app.py` (lines 118-124): builds
`EXCHANGE:SYMBOL`, calls `kite_instance.ltp`, and converts any raised
exception into an error dictionary. -/
def get_ltp_price {α : Type} (ltp : String → Except String α)
    (symbol exchange : String) : FetchResult α :=
  match ltp (exchange.toUpper ++ ":" ++ symbol.toUpper) with
  | Except.ok d => FetchResult.data d
  | Except.error e => FetchResult.errorDict e

/-- `get_ohlc_quote` of `src/streamlit_app.py` (lines 126-132). -/
def get_ohlc_quote {α : Type} (ohlc : String → Except String α)
    (symbol exchange : String) : FetchResult α :=
  match ohlc (exchange.toUpper ++ ":" ++ symbol.toUpper) with
  | Except.ok d => FetchResult.data d
  | Except.error e => FetchResult.errorDict e

/-- `get_full_market_quote` of `src/streamlit_app.py` (lines 134-140). -/
def get_full_market_quote {α : Type} (quote : String → Except String α)
    (symbol exchange : String) : FetchResult α :=
  match quote (exchange.toUpper ++ ":" ++ symbol.toUpper) with
  | Except.ok d => FetchResult.data d
  | Except.error e => FetchResult.errorDict e

/-- `load_instruments` of `src/streamlit_app.py` (lines 89-105): on any
backend failure it shows a warning and returns an empty dataframe. -/
def load_instruments (instruments : Except String (List Instrument)) :
    List Instrument :=
  match instruments with
  | Except.ok inst => inst
  | Except.error _ => []

/-- `find_instrument_token` of `src/streamlit_app.py` (lines 107-116):
case-insensitive lookup of the first row matching exchange and
tradingsymbol; `None` on an empty dataframe or no hit. -/
def find_instrument_token (df : List Instrument)
    (tradingsymbol exchange : String) : Option Int :=
  match df with
  | [] => none
  | _ =>
      match df.filter (fun i =>
          i.exchange.toUpper == exchange.toUpper &&
          i.tradingsymbol.toUpper == tradingsymbol.toUpper) with
      | [] => none
      | hit :: _ => some hit.instrument_token

/-- Python truthiness of the looked-up token: `not token` is true for
`None` and for `0`. -/
def tokenTruthy : Option Int → Bool
  | none => false
  | some t => !(t == 0)

/-- `st.session_state.get("instruments_df", pd.DataFrame())`. -/
def getInstrumentsDf (sess : Dict) : List Instrument :=
  match getItem? sess "instruments_df" with
  | some (SVal.df l) => l
  | _ => []

/-- The error message returned when no instrument token can be
resolved (`src/streamlit_app.py` line 154). -/
def notFoundMsg (symbol exchange : String) : String :=
  "Instrument token not found for " ++ symbol ++ " on " ++ exchange ++
    ". Please ensure instruments are loaded or symbol/exchange is correct."

/-- The final `kite_instance.historical_data` call of `get_historical`
with its surrounding `try`/`except`. -/
def fetchHist {α : Type} (historical_data : Int → Except String α)
    (sess : Dict) (t : Int) : Dict × FetchResult α :=
  match historical_data t with
  | Except.ok d => (sess, FetchResult.data d)
  | Except.error e => (sess, FetchResult.errorDict e)

/-- `get_historical` of `src/streamlit_app.py` (lines 142-163): resolve
the instrument token from the cached dataframe, otherwise fetch and
cache the instruments dump and retry, return an error dictionary when
the token stays unresolved, and otherwise fetch the candles with any
exception converted to an error dictionary. -/
def get_historical {α : Type} (historical_data : Int → Except String α)
    (instruments : Except String (List Instrument))
    (sess : Dict) (symbol exchange : String) : Dict × FetchResult α :=
  let inst_df := getInstrumentsDf sess
  let token0 := find_instrument_token inst_df symbol exchange
  if tokenTruthy token0 then
    fetchHist historical_data sess (token0.getD 0)
  else
    let all_instruments := load_instruments instruments
    let sess1 := if all_instruments.isEmpty then sess
      else setItem sess "instruments_df" (SVal.df all_instruments)
    let token1 := if all_instruments.isEmpty then token0
      else find_instrument_token all_instruments symbol exchange
    if tokenTruthy token1 then fetchHist historical_data sess1 (token1.getD 0)
    else (sess1, FetchResult.errorDict (notFoundMsg symbol exchange))

theorem fetchHist_data_or_error {α : Type} (hd : Int → Except String α)
    (sess : Dict) (t : Int) :
    (∃ d, fetchHist hd sess t = (sess, FetchResult.data d)) ∨
    (∃ m, fetchHist hd sess t = (sess, FetchResult.errorDict m)) := by
  unfold fetchHist
  cases hd t with
  | ok d => exact Or.inl ⟨d, rfl⟩
  | error m => exact Or.inr ⟨m, rfl⟩

theorem fetchHist_error {α : Type} (hd : Int → Except String α)
    (sess : Dict) (t : Int) (e : String) (h : hd t = Except.error e) :
    fetchHist hd sess t = (sess, FetchResult.errorDict e) := by
  unfold fetchHist
  rw [h]

/-- Claim C10: the market-data helpers are total over a fallible
backend — a raising backend yields the error dictionary, never an
escaping exception; `load_instruments` returns an empty dataframe on
failure; and `get_historical` always returns either backend data or an
error dictionary, returning the latter whenever the backend raises or
the instrument token stays unresolved. -/
theorem c10_market_helpers_total {α : Type} (e : String)
    (symbol exchange : String) (sess : Dict)
    (instruments : Except String (List Instrument))
    (historical_data : Int → Except String α)
    (backend : String → Except String α) :
    get_ltp_price (fun _ => (Except.error e : Except String α)) symbol exchange
      = FetchResult.errorDict e ∧
    get_ohlc_quote (fun _ => (Except.error e : Except String α)) symbol exchange
      = FetchResult.errorDict e ∧
    get_full_market_quote (fun _ => (Except.error e : Except String α)) symbol
        exchange
      = FetchResult.errorDict e ∧
    load_instruments (Except.error e) = [] ∧
    ((∃ d, get_ltp_price backend symbol exchange = FetchResult.data d) ∨
      (∃ m, get_ltp_price backend symbol exchange = FetchResult.errorDict m)) ∧
    ((∃ d s2, get_historical historical_data instruments sess symbol exchange
        = (s2, FetchResult.data d)) ∨
      (∃ m s2, get_historical historical_data instruments sess symbol exchange
        = (s2, FetchResult.errorDict m))) ∧
    ((∀ t, historical_data t = Except.error e) →
      ((get_historical historical_data instruments sess symbol exchange).2
          = FetchResult.errorDict e ∨
        (get_historical historical_data instruments sess symbol exchange).2
          = FetchResult.errorDict (notFoundMsg symbol exchange))) := by
  refine ⟨rfl, rfl, rfl, rfl, ?_, ?_, ?_⟩
  · unfold get_ltp_price
    cases backend (exchange.toUpper ++ ":" ++ symbol.toUpper) with
    | ok d => exact Or.inl ⟨d, rfl⟩
    | error m => exact Or.inr ⟨m, rfl⟩
  · simp only [get_historical]
    by_cases h0 : tokenTruthy
        (find_instrument_token (getInstrumentsDf sess) symbol exchange)
    · rw [if_pos h0]
      rcases fetchHist_data_or_error historical_data sess
          ((find_instrument_token (getInstrumentsDf sess) symbol exchange).getD 0)
        with ⟨d, hd⟩ | ⟨m, hm⟩
      · exact Or.inl ⟨d, sess, hd⟩
      · exact Or.inr ⟨m, sess, hm⟩
    · rw [if_neg h0]
      by_cases h1 : tokenTruthy
          (if (load_instruments instruments).isEmpty then
            find_instrument_token (getInstrumentsDf sess) symbol exchange
          else find_instrument_token (load_instruments instruments) symbol exchange)
      · rw [if_pos h1]
        rcases fetchHist_data_or_error historical_data
            (if (load_instruments instruments).isEmpty then sess
              else setItem sess "instruments_df" (SVal.df (load_instruments instruments)))
            ((if (load_instruments instruments).isEmpty then
                find_instrument_token (getInstrumentsDf sess) symbol exchange
              else find_instrument_token (load_instruments instruments) symbol
                exchange).getD 0)
          with ⟨d, hd⟩ | ⟨m, hm⟩
        · exact Or.inl ⟨d, _, hd⟩
        · exact Or.inr ⟨m, _, hm⟩
      · rw [if_neg h1]
        exact Or.inr ⟨notFoundMsg symbol exchange, _, rfl⟩
  · intro hall
    simp only [get_historical]
    by_cases h0 : tokenTruthy
        (find_instrument_token (getInstrumentsDf sess) symbol exchange)
    · rw [if_pos h0]
      rw [fetchHist_error historical_data sess _ e (hall _)]
      exact Or.inl rfl
    · rw [if_neg h0]
      by_cases h1 : tokenTruthy
          (if (load_instruments instruments).isEmpty then
            find_instrument_token (getInstrumentsDf sess) symbol exchange
          else find_instrument_token (load_instruments instruments) symbol exchange)
      · rw [if_pos h1]
        rw [fetchHist_error historical_data _ _ e (hall _)]
        exact Or.inl rfl
      · rw [if_neg h1]
        exact Or.inr rfl

/-- Witness for C10 at a concrete always-failing backend with an empty
session dictionary. -/
theorem c10_witness :
    get_ltp_price (fun _ => (Except.error "TokenException" :
        Except String (List Instrument))) "NIFTY 50" "NSE"
      = FetchResult.errorDict "TokenException" ∧
    load_instruments (Except.error "TokenException") = [] ∧
    ((get_historical
          (fun _ => (Except.error "TokenException" :
            Except String (List Instrument)))
          (Except.error "TokenException") [] "NIFTY 50" "NSE").2
        = FetchResult.errorDict "TokenException" ∨
      (get_historical
          (fun _ => (Except.error "TokenException" :
            Except String (List Instrument)))
          (Except.error "TokenException") [] "NIFTY 50" "NSE").2
        = FetchResult.errorDict (notFoundMsg "NIFTY 50" "NSE")) :=
  ⟨(c10_market_helpers_total "TokenException" "NIFTY 50" "NSE" []
      (Except.error "TokenException")
      (fun _ => (Except.error "TokenException" :
        Except String (List Instrument)))
      (fun _ => Except.error "TokenException")).1,
    (c10_market_helpers_total "TokenException" "NIFTY 50" "NSE" []
      (Except.error "TokenException")
      (fun _ => (Except.error "TokenException" :
        Except String (List Instrument)))
      (fun _ => Except.error "TokenException")).2.2.2.1,
    (c10_market_helpers_total "TokenException" "NIFTY 50" "NSE" []
      (Except.error "TokenException")
      (fun _ => (Except.error "TokenException" :
        Except String (List Instrument)))
      (fun _ => Except.error "TokenException")).2.2.2.2.2.2
      (fun _ => rfl)⟩

end KiteApp

namespace Restriction

/-- A calendar date as parsed from an ISO `YYYY-MM-DD` field. -/
structure PDate where
  y : Nat
  m : Nat
  d : Nat
deriving DecidableEq, Repr

/-- Lexicographic date comparison, non-strict. -/
def dateLe (a b : PDate) : Bool :=
  decide (a.y < b.y ∨ (a.y = b.y ∧ (a.m < b.m ∨ (a.m = b.m ∧ a.d ≤ b.d))))

/-- Lexicographic date comparison, strict. -/
def dateLt (a b : PDate) : Bool :=
  decide (a.y < b.y ∨ (a.y = b.y ∧ (a.m < b.m ∨ (a.m = b.m ∧ a.d < b.d))))

/-- Split a character list on a separator; the empty list is one empty
field. -/
def splitChar (sep : Char) : List Char → List (List Char)
  | [] => [[]]
  | c :: cs =>
      let r := splitChar sep cs
      if c = sep then [] :: r
      else
        match r with
        | [] => [[c]]
        | f :: rest => (c :: f) :: rest

/-- Value of a decimal digit character. -/
def digitVal (c : Char) : Option Nat :=
  if c.isDigit then some (c.toNat - '0'.toNat) else none

/-- Parse a non-empty all-digit field. -/
def parseNatDigits (cs : List Char) : Option Nat :=
  match cs with
  | [] => none
  | _ =>
      cs.foldl (fun acc c =>
        match acc, digitVal c with
        | some n, some dv => some (n * 10 + dv)
        | _, _ => none) (some 0)

/-- Parse an ISO `YYYY-MM-DD` field. -/
def parsePDate (cs : List Char) : Option PDate :=
  match splitChar '-' cs with
  | [ys, ms, ds] =>
      match parseNatDigits ys, parseNatDigits ms, parseNatDigits ds with
      | some y, some m, some d => some ⟨y, m, d⟩
      | _, _, _ => none
  | _ => none

/-- One side of the interval: empty means unbounded, otherwise an ISO
date. -/
def parseBound (cs : List Char) : Option (Option PDate) :=
  match cs with
  | [] => some none
  | _ => (parsePDate cs).map some

/-- A parsed restriction interval: each bracket independently signals
inclusive (`[`, `]`) or exclusive (`(`, `)`) for its side; a missing
bound means unbounded on that side. -/
structure RInterval where
  lowerIncl : Bool
  upperIncl : Bool
  lower : Option PDate
  upper : Option PDate
deriving DecidableEq, Repr

/-- Parse the bracketed two-field interval text
`<bracket><lower>,<upper><bracket>`. -/
def parseRInterval (text : String) : Option RInterval :=
  match text.data with
  | [] => none
  | first :: rest =>
      match rest.getLast? with
      | none => none
      | some last =>
          let inner := rest.dropLast
          let li : Option Bool :=
            if first = '[' then some true
            else if first = '(' then some false else none
          let ui : Option Bool :=
            if last = ']' then some true
            else if last = ')' then some false else none
          match li, ui with
          | some l, some u =>
              match splitChar ',' inner with
              | [loCs, hiCs] =>
                  match parseBound loCs, parseBound hiCs with
                  | some lo, some hi => some ⟨l, u, lo, hi⟩
                  | _, _ => none
              | _ => none
          | _, _ => none

/-- Lower-side test under the bracket's inclusivity. -/
def boundOkLower (incl : Bool) (lo : Option PDate) (d : PDate) : Bool :=
  match lo with
  | none => true
  | some l => if incl then dateLe l d else dateLt l d

/-- Upper-side test under the bracket's inclusivity. -/
def boundOkUpper (incl : Bool) (hi : Option PDate) (d : PDate) : Bool :=
  match hi with
  | none => true
  | some h => if incl then dateLe d h else dateLt d h

/-- Modelled from the spec: `is_effective(interval_text, on_date)`, the
restriction-interval membership check (its implementation is not under
src/; only the specification describes it).  Malformed input returns
false (fails closed, never raises); a fully unbounded interval (both
fields empty) never matches, as the spec documents for the observed
logic; otherwise each bracket independently signals the inclusivity of
its side. -/
def is_effective (interval_text : String) (on_date : PDate) : Bool :=
  match parseRInterval interval_text with
  | none => false
  | some iv =>
      match iv.lower, iv.upper with
      | none, none => false
      | _, _ =>
          boundOkLower iv.lowerIncl iv.lower on_date &&
          boundOkUpper iv.upperIncl iv.upper on_date

/-- The spec's wording for interval membership, stated directly over
the parsed bounds: the date falls within the interval under the stated
inclusivity of each side, an empty side imposing no constraint. -/
def inIntervalSpec (li ui : Bool) (lo hi : Option PDate) (d : PDate) : Bool :=
  (match lo with
    | none => true
    | some l => if li then dateLe l d else dateLt l d) &&
  (match hi with
    | none => true
    | some h => if ui then dateLe d h else dateLt d h)

/-- Counterexample to claim C8: the fully unbounded text is of the
bracketed two-field form (it parses, both fields empty), every date
falls within it under each bracket's inclusivity, yet `is_effective`
returns false — the claimed equivalence fails there. -/
theorem c8_counterexample :
    parseRInterval "[,)" = some ⟨true, false, none, none⟩ ∧
    inIntervalSpec true false none none ⟨2025, 1, 1⟩ = true ∧
    is_effective "[,)" ⟨2025, 1, 1⟩ = false := by
  decide

/-- Amended claim C8: on every interval text of the bracketed two-field
form, `is_effective` agrees with membership under each bracket's
independently signalled inclusivity except for the fully unbounded text
(both fields empty), which never matches; in particular the three
concrete evaluations of the claim hold. -/
theorem c8_amended_is_effective (text : String) (d : PDate) (iv : RInterval)
    (hparse : parseRInterval text = some iv) :
    is_effective text d =
      (if iv.lower = none ∧ iv.upper = none then false
        else inIntervalSpec iv.lowerIncl iv.upperIncl iv.lower iv.upper d) ∧
    is_effective "[2025-01-01,2025-01-31)" ⟨2025, 1, 1⟩ = true ∧
    is_effective "[2025-01-01,2025-01-31)" ⟨2025, 1, 31⟩ = false ∧
    is_effective "[2025-01-01,2025-01-31]" ⟨2025, 1, 31⟩ = true := by
  refine ⟨?_, by decide, by decide, by decide⟩
  obtain ⟨li, ui, lo, hi⟩ := iv
  simp only [is_effective, hparse]
  cases lo with
  | none =>
      cases hi with
      | none => simp
      | some h => simp [inIntervalSpec, boundOkLower, boundOkUpper]
  | some l =>
      cases hi with
      | none => simp [inIntervalSpec, boundOkLower, boundOkUpper]
      | some h => simp [inIntervalSpec, boundOkLower, boundOkUpper]

/-- Witness for the amended C8 at the spec's half-unbounded test case. -/
theorem c8_amended_witness :
    is_effective "(,2025-01-01]" ⟨2024, 12, 31⟩ =
      (if (none : Option PDate) = none ∧
          (some ⟨2025, 1, 1⟩ : Option PDate) = none then false
        else inIntervalSpec false true none (some ⟨2025, 1, 1⟩)
          ⟨2024, 12, 31⟩) ∧
    is_effective "[2025-01-01,2025-01-31)" ⟨2025, 1, 1⟩ = true ∧
    is_effective "[2025-01-01,2025-01-31)" ⟨2025, 1, 31⟩ = false ∧
    is_effective "[2025-01-01,2025-01-31]" ⟨2025, 1, 31⟩ = true :=
  c8_amended_is_effective "(,2025-01-01]" ⟨2024, 12, 31⟩
    ⟨false, true, none, some ⟨2025, 1, 1⟩⟩ (by decide)

end Restriction
